import Mathlib

/-!
Shallow embedding of the `analyzeYouTubeVideo` workflow from
`src/unnamed/part_000` (a single linear script driving the Gemini File API
and content-generation API), together with theorems settling the spec's
claims about it.

External service calls (listing, upload, per-poll fetch, token count,
content generation) are modelled as oracle functions passed in as
arguments; the unbounded polling loop is modelled with explicit fuel, with
`none` meaning the loop was still running when the fuel ran out.
-/

namespace GeminiVideo

/-- Processing state of a remote file, as in the spec's data model and the
SDK's `FileState` values the source compares against
(`FileState.PROCESSING`, `FileState.ACTIVE`, `FileState.FAILED`). -/
inductive FileState where
  | processing
  | active
  | failed
deriving DecidableEq, Repr

/-- A remote file record as returned by the file-listing, upload and fetch
calls: logical name, display name, MIME type, URI and processing state. -/
structure RemoteFile where
  name : String
  displayName : String
  mimeType : String
  uri : String
  state : FileState
deriving DecidableEq, Repr

/-- The name the listing scan compares against:
`file.name === "files/ai-persuasion"` in the source. -/
def desiredName : String := "files/ai-persuasion"

/-- Options passed to `fileManager.uploadFile` in the source. -/
structure UploadConfig where
  mimeType : String
  displayName : String
  name : String
deriving DecidableEq, Repr

/-- The concrete upload options of the source:
`mimeType: "video/mp4", displayName: "AI Persuasion", name: "ai-persuasion"`. -/
def uploadConfig : UploadConfig :=
  ⟨"video/mp4", "AI Persuasion", "ai-persuasion"⟩

/-- The listing scan of the source: `videoFile` starts out `undefined` and
the `for` loop overwrites it with every file whose `name` equals the
desired name, so a later match replaces an earlier one. -/
def scanForName (desired : String) (files : List RemoteFile) : Option RemoteFile :=
  files.foldl (fun acc file => if file.name = desired then some file else acc) none

/-- The resolve step (source lines 29-53): list remote files
(`listFilesResponse?.files ?? []` is modelled as an `Option` defaulted to
`[]`), scan for the desired name, and if nothing matched call the upload
oracle once with `uploadConfig` and use the file it returns. The second
component counts the upload calls issued (0 or 1 by construction). -/
def resolveRemoteFile (listing : Option (List RemoteFile))
    (upload : UploadConfig → RemoteFile) : RemoteFile × Nat :=
  match scanForName desiredName (listing.getD []) with
  | some f => (f, 0)
  | none => (upload uploadConfig, 1)

/-- Milliseconds slept between poll attempts: `setTimeout(resolve, 5_000)`. -/
def pollDelayMs : Nat := 5000

/-- Counters accumulated by the polling loop: fetch calls issued, loop
iterations executed, and total milliseconds spent sleeping. Each loop
iteration of the source performs exactly one 5-second sleep followed by
exactly one `fileManager.getFile` call. -/
structure AwaitStats where
  fetches : Nat
  iterations : Nat
  elapsedMs : Nat
deriving DecidableEq, Repr

/-- Outcome of the wait-for-ready step: the file is ready for inference,
or the `if (file.state === FileState.FAILED) throw` branch fired
(ProcessingFailedError). Either way it carries the last observed file. -/
inductive AwaitResult where
  | ready (file : RemoteFile)
  | procFailed (file : RemoteFile)
deriving DecidableEq, Repr

/-- The last file record observed by the wait-for-ready step. -/
def AwaitResult.file : AwaitResult → RemoteFile
  | AwaitResult.ready f => f
  | AwaitResult.procFailed f => f

/-- The polling loop of the source (lines 55-66) with explicit fuel:
`while (file.state === FileState.PROCESSING) { sleep 5s; file = await
fileManager.getFile(videoFile.name) }` followed by
`if (file.state === FileState.FAILED) throw`. The fetch oracle is indexed
by the number of fetches already issued; the source always fetches the
constant `videoFile.name`, so the name argument carries no information and
is omitted from the oracle. `none` means the fuel was exhausted while the
state was still `processing`. -/
def awaitReadyFuel (fetchSeq : Nat → RemoteFile) :
    Nat → RemoteFile → AwaitStats → Option (AwaitResult × AwaitStats)
  | fuel, file, s =>
    if file.state = FileState.processing then
      match fuel with
      | 0 => none
      | fuel' + 1 =>
        awaitReadyFuel fetchSeq fuel' (fetchSeq s.fetches)
          ⟨s.fetches + 1, s.iterations + 1, s.elapsedMs + pollDelayMs⟩
    else if file.state = FileState.failed then
      some (AwaitResult.procFailed file, s)
    else
      some (AwaitResult.ready file, s)

/-- The wait-for-ready step started from fresh counters. -/
def awaitReady (fetchSeq : Nat → RemoteFile) (file : RemoteFile) (fuel : Nat) :
    Option (AwaitResult × AwaitStats) :=
  awaitReadyFuel fetchSeq fuel file ⟨0, 0, 0⟩

/-- The `fileData` object of the request: MIME type and file URI. -/
structure FileData where
  mimeType : String
  fileUri : String
deriving DecidableEq, Repr

/-- One element of a content's `parts` array: either a file-data part or a
text part. -/
inductive Part where
  | fileDataPart (fd : FileData)
  | textPart (text : String)
deriving DecidableEq, Repr

/-- One element of the request's `contents` array. -/
structure Content where
  role : String
  parts : List Part
deriving DecidableEq, Repr

/-- The fixed instruction text of the source's request. -/
def promptText : String :=
  "Make a YouTube title, description, chapters, tags, and a 1000 word blog post in markdown format best for this video including images from the video."

/-- The fixed `generationConfig` of the source. The source's
`temperature: 0.2` is recorded in thousandths to stay in exact
arithmetic. -/
structure GenerationConfig where
  temperatureMilli : Nat
  topK : Nat
  topP : Nat
  maxOutputTokens : Nat
deriving DecidableEq, Repr

/-- The outgoing `GenerateContentRequest` of the source, keeping the parts
the claims are about: the contents (one user turn with a file-data part
and a text part), the fixed generation parameters, the single safety
setting, the forced function-calling mode, and the names of the five
declared tool functions. -/
structure GenerationRequest where
  contents : List Content
  generationConfig : GenerationConfig
  safetySettings : List (String × String)
  functionCallingMode : String
  toolFunctionNames : List String
deriving DecidableEq, Repr

/-- Construction of the request (source lines 76-183). The source embeds
`videoFile.mimeType` and `videoFile.uri` — the resolved file, not the
re-fetched one — in the file-data part. -/
def buildRequest (videoFile : RemoteFile) : GenerationRequest :=
  ⟨[⟨"user", [Part.fileDataPart ⟨videoFile.mimeType, videoFile.uri⟩,
              Part.textPart promptText]⟩],
   ⟨200, 1, 1, 4000⟩,
   [("HARM_CATEGORY_HARASSMENT", "BLOCK_MEDIUM_AND_ABOVE")],
   "ANY",
   ["get_title", "get_summary", "get_chapters", "get_tags", "get_blog"]⟩

/-- The first file-data part appearing anywhere in a request's contents. -/
def requestFileData (req : GenerationRequest) : Option FileData :=
  List.findSome?
    (fun p => match p with
      | Part.fileDataPart fd => some fd
      | Part.textPart _ => none)
    (req.contents.flatMap Content.parts)

/-- A function call chosen by the model: a name and its (opaque,
JSON-serialized) arguments. -/
structure FunctionCall where
  name : String
  args : String
deriving DecidableEq, Repr

/-- Service calls issued by the generate step, in order. -/
inductive GenEvent where
  | countTokensCall (req : GenerationRequest)
  | generateCall (req : GenerationRequest)
deriving DecidableEq, Repr

/-- How the generate step ends. The source's `catch` logs the error and
falls off the end of the function, so every constructor here is a normal
return; nothing propagates to the caller. `noFunctions` is the
`if(!functions) { console.log("No functions called"); return; }` branch
(the SDK's `functionCalls()` yields `undefined`, modelled as a `none`
payload, when the response holds zero function calls). -/
inductive GenOutcome where
  | functionsReturned (fs : List FunctionCall)
  | noFunctions
  | errorLogged (msg : String)
deriving DecidableEq, Repr

/-- The generate step (source lines 72-200): build the request, ask the
token-count oracle, then the generation oracle; an `Except.error` from
either models a thrown transport/service error, which the surrounding
`try`/`catch` catches and logs. Also returns the list of service calls
issued, in order. -/
def generateStep (videoFile : RemoteFile)
    (countTokens : GenerationRequest → Except String Nat)
    (generateContent : GenerationRequest → Except String (Option (List FunctionCall))) :
    GenOutcome × List GenEvent :=
  let request := buildRequest videoFile
  match countTokens request with
  | Except.error e => (GenOutcome.errorLogged e, [GenEvent.countTokensCall request])
  | Except.ok _ =>
    match generateContent request with
    | Except.error e =>
        (GenOutcome.errorLogged e,
         [GenEvent.countTokensCall request, GenEvent.generateCall request])
    | Except.ok none =>
        (GenOutcome.noFunctions,
         [GenEvent.countTokensCall request, GenEvent.generateCall request])
    | Except.ok (some fs) =>
        (GenOutcome.functionsReturned fs,
         [GenEvent.countTokensCall request, GenEvent.generateCall request])

/-- Calls issued by one whole run: upload calls, polling-loop counters,
and the generate-step calls in order. -/
structure RunTrace where
  uploadCalls : Nat
  awaitStats : AwaitStats
  genEvents : List GenEvent
deriving DecidableEq, Repr

/-- How a whole run ends: the `throw new Error("Video processing failed.")`
propagates out of `analyzeYouTubeVideo` (ProcessingFailedError), while a
completed run — including one whose generation error was caught and
logged — is a normal exit. -/
inductive RunOutcome where
  | processingFailed
  | completed (result : GenOutcome)
deriving DecidableEq, Repr

/-- The whole workflow of the source, strictly sequential: resolve the
remote file, run the polling loop on it, throw if its final state is
failed, otherwise run the generate step on the resolved `videoFile`.
`none` means the polling loop was still running when the fuel ran out. -/
def analyzeYouTubeVideo (listing : Option (List RemoteFile))
    (upload : UploadConfig → RemoteFile)
    (fetchSeq : Nat → RemoteFile)
    (countTokens : GenerationRequest → Except String Nat)
    (generateContent : GenerationRequest → Except String (Option (List FunctionCall)))
    (fuel : Nat) : Option (RunOutcome × RunTrace) :=
  let resolved := resolveRemoteFile listing upload
  match awaitReady fetchSeq resolved.1 fuel with
  | none => none
  | some (AwaitResult.procFailed _, stats) =>
      some (RunOutcome.processingFailed, ⟨resolved.2, stats, []⟩)
  | some (AwaitResult.ready _, stats) =>
      let g := generateStep resolved.1 countTokens generateContent
      some (RunOutcome.completed g.1, ⟨resolved.2, stats, g.2⟩)

/-! Sample concrete values used by witnesses and counterexamples. -/

/-- A listed file with the desired name, already active. -/
def sampleActive : RemoteFile :=
  ⟨"files/ai-persuasion", "AI Persuasion", "video/mp4",
   "https://generativelanguage/files/ai-persuasion", FileState.active⟩

/-- A second listed file with the desired name (distinct URI), active. -/
def sampleActive2 : RemoteFile :=
  ⟨"files/ai-persuasion", "AI Persuasion", "video/mp4",
   "https://generativelanguage/files/ai-persuasion-2", FileState.active⟩

/-- A listed file with the desired name, still processing. -/
def sampleProcessing : RemoteFile :=
  ⟨"files/ai-persuasion", "AI Persuasion", "video/mp4",
   "https://generativelanguage/files/ai-persuasion", FileState.processing⟩

/-- A listed file with the desired name, in the failed state. -/
def sampleFailed : RemoteFile :=
  ⟨"files/ai-persuasion", "AI Persuasion", "video/mp4",
   "https://generativelanguage/files/ai-persuasion", FileState.failed⟩

/-- A sample upload oracle: returns a freshly created file, initially
processing, echoing the configured names. -/
def sampleUpload : UploadConfig → RemoteFile :=
  fun c => ⟨"files/" ++ c.name, c.displayName, c.mimeType,
            "https://generativelanguage/upload", FileState.processing⟩

/-- A fetch oracle whose first call reports processing and every later
call reports failed. -/
def procThenFailedSeq : Nat → RemoteFile :=
  fun n => if n = 0 then sampleProcessing else sampleFailed

/-- A sample token-count oracle that succeeds. -/
def sampleCountTokens : GenerationRequest → Except String Nat :=
  fun _ => Except.ok 42

/-- A sample token-count oracle that raises a transport error. -/
def sampleCountFails : GenerationRequest → Except String Nat :=
  fun _ => Except.error "boom"

/-- A sample generation oracle whose response holds zero function calls. -/
def sampleGenerateNone : GenerationRequest → Except String (Option (List FunctionCall)) :=
  fun _ => Except.ok none

/-- A sample generation oracle that returns one function call. -/
def sampleGenerate : GenerationRequest → Except String (Option (List FunctionCall)) :=
  fun _ => Except.ok (some [⟨"get_title", "a title"⟩])

/-! Helper lemmas. -/

@[simp]
theorem AwaitResult.file_ready (f : RemoteFile) : (AwaitResult.ready f).file = f := rfl

@[simp]
theorem AwaitResult.file_procFailed (f : RemoteFile) :
    (AwaitResult.procFailed f).file = f := rfl

/-- Folding the listing scan over files none of which match leaves the
accumulator unchanged. -/
theorem scan_foldl_no_match (d : String) (l : List RemoteFile) (acc : Option RemoteFile)
    (h : ∀ f ∈ l, f.name ≠ d) :
    l.foldl (fun acc file => if file.name = d then some file else acc) acc = acc := by
  induction l generalizing acc with
  | nil => rfl
  | cons f fs ih =>
    simp only [List.foldl_cons]
    rw [if_neg (h f (List.mem_cons_self f fs))]
    exact ih acc fun g hg => h g (List.mem_cons_of_mem f hg)

/-- Without a matching file the scan finds nothing. -/
theorem scanForName_no_match (d : String) (l : List RemoteFile)
    (h : ∀ f ∈ l, f.name ≠ d) : scanForName d l = none :=
  scan_foldl_no_match d l none h

/-- Appending one more file to the listing changes the scan's result
exactly when the new file matches. -/
theorem scanForName_snoc (d : String) (l : List RemoteFile) (f : RemoteFile) :
    scanForName d (l ++ [f]) =
      if f.name = d then some f else scanForName d l := by
  unfold scanForName
  rw [List.foldl_append]
  simp only [List.foldl_cons, List.foldl_nil]

/-- With at least one matching file the scan finds a matching member of
the list. -/
theorem scanForName_exists_match (d : String) (l : List RemoteFile)
    (h : ∃ f ∈ l, f.name = d) :
    ∃ g, scanForName d l = some g ∧ g ∈ l ∧ g.name = d := by
  induction l using List.reverseRecOn with
  | nil => obtain ⟨f, hf, _⟩ := h; cases hf
  | append_singleton l f ih =>
    rw [scanForName_snoc]
    by_cases hf : f.name = d
    · exact ⟨f, by rw [if_pos hf], by simp, hf⟩
    · rw [if_neg hf]
      obtain ⟨g, hg, hname⟩ := h
      have hgl : g ∈ l := by
        rcases List.mem_append.mp hg with h' | h'
        · exact h'
        · have hgf : g = f := by simpa using h'
          exact absurd (hgf ▸ hname) hf
      obtain ⟨g', hg', hmem, hname'⟩ := ih ⟨g, hgl, hname⟩
      exact ⟨g', hg', List.mem_append.mpr (Or.inl hmem), hname'⟩

/-- The scan returns the last matching entry in listing order. -/
theorem scanForName_append_last (d : String) (l₁ l₂ : List RemoteFile) (f : RemoteFile)
    (hf : f.name = d) (h₂ : ∀ g ∈ l₂, g.name ≠ d) :
    scanForName d (l₁ ++ f :: l₂) = some f := by
  unfold scanForName
  rw [List.foldl_append]
  simp only [List.foldl_cons]
  rw [if_pos hf]
  exact scan_foldl_no_match d l₂ _ h₂

/-- Unfolding equation: a non-processing file exits the loop at once. -/
theorem awaitReadyFuel_exit (fetchSeq : Nat → RemoteFile) (fuel : Nat)
    (file : RemoteFile) (s : AwaitStats) (hp : file.state ≠ FileState.processing) :
    awaitReadyFuel fetchSeq fuel file s =
      if file.state = FileState.failed then some (AwaitResult.procFailed file, s)
      else some (AwaitResult.ready file, s) := by
  unfold awaitReadyFuel
  rw [if_neg hp]

/-- Unfolding equation: a processing file with fuel left sleeps once,
fetches once, and continues with the fetched file. -/
theorem awaitReadyFuel_step (fetchSeq : Nat → RemoteFile) (fuel : Nat)
    (file : RemoteFile) (s : AwaitStats) (hp : file.state = FileState.processing) :
    awaitReadyFuel fetchSeq (fuel + 1) file s =
      awaitReadyFuel fetchSeq fuel (fetchSeq s.fetches)
        ⟨s.fetches + 1, s.iterations + 1, s.elapsedMs + pollDelayMs⟩ := by
  conv_lhs => unfold awaitReadyFuel
  rw [if_pos hp]

/-- Unfolding equation: a processing file with no fuel yields `none`. -/
theorem awaitReadyFuel_zero (fetchSeq : Nat → RemoteFile)
    (file : RemoteFile) (s : AwaitStats) (hp : file.state = FileState.processing) :
    awaitReadyFuel fetchSeq 0 file s = none := by
  unfold awaitReadyFuel
  rw [if_pos hp]

/-- Loop invariant: when the loop returns, the fetch counter, the
iteration counter and the slept time all advanced in lockstep (one fetch,
one iteration and one fixed delay per pass), and the file it returns is
not in the processing state. -/
theorem awaitReadyFuel_spec (fetchSeq : Nat → RemoteFile) :
    ∀ (fuel : Nat) (file : RemoteFile) (s : AwaitStats) (r : AwaitResult) (s' : AwaitStats),
    awaitReadyFuel fetchSeq fuel file s = some (r, s') →
    ∃ k, s'.fetches = s.fetches + k ∧ s'.iterations = s.iterations + k ∧
      s'.elapsedMs = s.elapsedMs + pollDelayMs * k ∧
      r.file.state ≠ FileState.processing := by
  intro fuel
  induction fuel with
  | zero =>
    intro file s r s' h
    by_cases hp : file.state = FileState.processing
    · rw [awaitReadyFuel_zero fetchSeq file s hp] at h; cases h
    · rw [awaitReadyFuel_exit fetchSeq 0 file s hp] at h
      by_cases hf : file.state = FileState.failed
      · rw [if_pos hf] at h
        injection h with h'
        injection h' with hr hs
        subst hr; subst hs
        exact ⟨0, rfl, rfl, by simp, hp⟩
      · rw [if_neg hf] at h
        injection h with h'
        injection h' with hr hs
        subst hr; subst hs
        exact ⟨0, rfl, rfl, by simp, hp⟩
  | succ fuel ih =>
    intro file s r s' h
    by_cases hp : file.state = FileState.processing
    · rw [awaitReadyFuel_step fetchSeq fuel file s hp] at h
      obtain ⟨k, h1, h2, h3, h4⟩ := ih _ _ _ _ h
      refine ⟨k + 1, ?_, ?_, ?_, h4⟩
      · simp only [h1]; omega
      · simp only [h2]; omega
      · simp only [h3, Nat.mul_succ]; ring
    · rw [awaitReadyFuel_exit fetchSeq (fuel + 1) file s hp] at h
      by_cases hf : file.state = FileState.failed
      · rw [if_pos hf] at h
        injection h with h'
        injection h' with hr hs
        subst hr; subst hs
        exact ⟨0, rfl, rfl, by simp, hp⟩
      · rw [if_neg hf] at h
        injection h with h'
        injection h' with hr hs
        subst hr; subst hs
        exact ⟨0, rfl, rfl, by simp, hp⟩

/-- A loop started on a processing file performs at least one fetch
before it can return. -/
theorem awaitReadyFuel_processing_pos (fetchSeq : Nat → RemoteFile)
    (fuel : Nat) (file : RemoteFile) (s : AwaitStats) (r : AwaitResult) (s' : AwaitStats)
    (hp : file.state = FileState.processing)
    (h : awaitReadyFuel fetchSeq fuel file s = some (r, s')) :
    s.fetches + 1 ≤ s'.fetches := by
  cases fuel with
  | zero => rw [awaitReadyFuel_zero fetchSeq file s hp] at h; cases h
  | succ fuel =>
    rw [awaitReadyFuel_step fetchSeq fuel file s hp] at h
    obtain ⟨k, h1, _, _, _⟩ := awaitReadyFuel_spec fetchSeq fuel _ _ _ _ h
    simp only at h1
    omega

/-- Exact shape of a run of the loop that sees `k` processing fetches and
then a failed fetch: it stops right there, after exactly `k + 1` fetches. -/
theorem awaitReadyFuel_failed_exact (fetchSeq : Nat → RemoteFile) :
    ∀ (k fuel : Nat) (file : RemoteFile) (s : AwaitStats),
    file.state = FileState.processing →
    (∀ i, i < k → (fetchSeq (s.fetches + i)).state = FileState.processing) →
    (fetchSeq (s.fetches + k)).state = FileState.failed →
    k < fuel →
    awaitReadyFuel fetchSeq fuel file s =
      some (AwaitResult.procFailed (fetchSeq (s.fetches + k)),
            ⟨s.fetches + k + 1, s.iterations + k + 1,
             s.elapsedMs + pollDelayMs * (k + 1)⟩) := by
  intro k
  induction k with
  | zero =>
    intro fuel file s hp _ hk hfuel
    cases fuel with
    | zero => omega
    | succ fuel =>
      rw [awaitReadyFuel_step fetchSeq fuel file s hp]
      have hk0 : (fetchSeq s.fetches).state = FileState.failed := by
        simpa using hk
      rw [awaitReadyFuel_exit fetchSeq fuel _ _ (by rw [hk0]; decide), if_pos hk0]
      simp [Nat.mul_one]
  | succ k ih =>
    intro fuel file s hp hbefore hk hfuel
    cases fuel with
    | zero => omega
    | succ fuel =>
      rw [awaitReadyFuel_step fetchSeq fuel file s hp]
      have h0 : (fetchSeq s.fetches).state = FileState.processing := by
        simpa using hbefore 0 (Nat.succ_pos k)
      have hbefore' : ∀ i, i < k →
          (fetchSeq (s.fetches + 1 + i)).state = FileState.processing := by
        intro i hi
        have := hbefore (i + 1) (Nat.succ_lt_succ hi)
        rwa [show s.fetches + (i + 1) = s.fetches + 1 + i by omega] at this
      have hk' : (fetchSeq (s.fetches + 1 + k)).state = FileState.failed := by
        rwa [show s.fetches + 1 + k = s.fetches + (k + 1) by omega]
      have hrec := ih fuel (fetchSeq s.fetches)
        ⟨s.fetches + 1, s.iterations + 1, s.elapsedMs + pollDelayMs⟩
        h0 hbefore' hk' (by omega)
      rw [hrec]
      simp only [Option.some.injEq, Prod.mk.injEq, AwaitResult.procFailed.injEq,
        AwaitStats.mk.injEq]
      refine ⟨congrArg fetchSeq (by omega), by omega, by omega, ?_⟩
      rw [Nat.mul_succ pollDelayMs (k + 1)]
      ring

/-! Claim theorems. -/

/-- C1: for every listing result that contains an entry whose name equals
the desired name `"files/ai-persuasion"`, the resolve step returns such an
entry of the listing as the RemoteFile to use and issues zero upload
calls. -/
theorem claim1_reuse_existing_no_upload
    (listing : Option (List RemoteFile)) (upload : UploadConfig → RemoteFile)
    (h : ∃ f ∈ listing.getD [], f.name = desiredName) :
    ∃ g, resolveRemoteFile listing upload = (g, 0) ∧
      g ∈ listing.getD [] ∧ g.name = desiredName := by
  obtain ⟨g, hscan, hmem, hname⟩ := scanForName_exists_match desiredName _ h
  refine ⟨g, ?_, hmem, hname⟩
  unfold resolveRemoteFile
  rw [hscan]

/-- Witness for C1: a listing holding the active file named
`"files/ai-persuasion"` is reused with zero upload calls. -/
theorem claim1_reuse_existing_no_upload_witness :
    ∃ g, resolveRemoteFile (some [sampleActive]) sampleUpload = (g, 0) ∧
      g ∈ (some [sampleActive] : Option (List RemoteFile)).getD [] ∧
      g.name = desiredName :=
  claim1_reuse_existing_no_upload (some [sampleActive]) sampleUpload
    ⟨sampleActive, by simp, rfl⟩

/-- C2: for every listing result with no matching entry (including an
empty or absent file list), the resolve step issues exactly one upload
call, configured with MIME type `"video/mp4"` and display name
`"AI Persuasion"`, and the file returned by that upload is the RemoteFile
used for the rest of the run (awaited, and handed to the generate step). -/
theorem claim2_upload_when_no_match
    (listing : Option (List RemoteFile)) (upload : UploadConfig → RemoteFile)
    (h : ∀ f ∈ listing.getD [], f.name ≠ desiredName) :
    resolveRemoteFile listing upload = (upload uploadConfig, 1) ∧
    uploadConfig.mimeType = "video/mp4" ∧
    uploadConfig.displayName = "AI Persuasion" ∧
    ∀ fetchSeq countTokens generateContent fuel r stats,
      awaitReady fetchSeq (upload uploadConfig) fuel =
        some (AwaitResult.ready r, stats) →
      analyzeYouTubeVideo listing upload fetchSeq countTokens generateContent fuel =
        some (RunOutcome.completed
                (generateStep (upload uploadConfig) countTokens generateContent).1,
              ⟨1, stats,
               (generateStep (upload uploadConfig) countTokens generateContent).2⟩) := by
  have hres : resolveRemoteFile listing upload = (upload uploadConfig, 1) := by
    unfold resolveRemoteFile
    rw [scanForName_no_match desiredName _ h]
  refine ⟨hres, rfl, rfl, ?_⟩
  intro fetchSeq countTokens generateContent fuel r stats hawait
  unfold analyzeYouTubeVideo
  rw [hres]
  simp only
  rw [hawait]

/-- Witness for C2: with an absent file list the upload oracle's file is
resolved and exactly one upload call is counted. -/
theorem claim2_upload_when_no_match_witness :
    resolveRemoteFile none sampleUpload = (sampleUpload uploadConfig, 1) :=
  (claim2_upload_when_no_match none sampleUpload (by simp)).1

/-- C9: the wait-for-ready loop has no attempt bound and no timeout: for
every fetch oracle that reports processing on every call, and an input
file in the processing state, no amount of fuel makes the loop return. -/
theorem claim9_unbounded_polling_diverges
    (fetchSeq : Nat → RemoteFile) (file : RemoteFile)
    (hfile : file.state = FileState.processing)
    (hseq : ∀ n, (fetchSeq n).state = FileState.processing) :
    ∀ fuel, awaitReady fetchSeq file fuel = none := by
  have aux : ∀ (fuel : Nat) (g : RemoteFile) (s : AwaitStats),
      g.state = FileState.processing →
      awaitReadyFuel fetchSeq fuel g s = none := by
    intro fuel
    induction fuel with
    | zero => intro g s hg; exact awaitReadyFuel_zero fetchSeq g s hg
    | succ fuel ih =>
      intro g s hg
      rw [awaitReadyFuel_step fetchSeq fuel g s hg]
      exact ih _ _ (hseq s.fetches)
  intro fuel
  exact aux fuel file ⟨0, 0, 0⟩ hfile

/-- Witness for C9: an always-processing oracle keeps the loop running
past 7 units of fuel. -/
theorem claim9_unbounded_polling_diverges_witness :
    awaitReady (fun _ => sampleProcessing) sampleProcessing 7 = none :=
  claim9_unbounded_polling_diverges (fun _ => sampleProcessing) sampleProcessing
    rfl (fun _ => rfl) 7

/-- C10: when the listing contains more than one entry with the desired
name, the resolve step uses the last such entry in listing order — the
scan overwrites its candidate on every later match. -/
theorem claim10_last_match_wins
    (upload : UploadConfig → RemoteFile) (l₁ l₂ : List RemoteFile) (f : RemoteFile)
    (hf : f.name = desiredName) (h₂ : ∀ g ∈ l₂, g.name ≠ desiredName) :
    resolveRemoteFile (some (l₁ ++ f :: l₂)) upload = (f, 0) := by
  unfold resolveRemoteFile
  have : (some (l₁ ++ f :: l₂) : Option (List RemoteFile)).getD [] =
      l₁ ++ f :: l₂ := rfl
  rw [this, scanForName_append_last desiredName l₁ l₂ f hf h₂]

/-- Witness for C10: with two matching entries the second one (distinct
URI) is resolved. -/
theorem claim10_last_match_wins_witness :
    resolveRemoteFile (some ([sampleActive] ++ sampleActive2 :: [])) sampleUpload =
      (sampleActive2, 0) :=
  claim10_last_match_wins sampleUpload [sampleActive] [] sampleActive2 rfl (by simp)

/-- C3: whenever the wait-for-ready loop returns, it issued exactly one
fetch call per loop iteration, the slept time is the fixed 5-second delay
times the number of fetches, the most recently observed state is not
"processing", and a file already in the "active" state returns at once
with zero fetch calls. -/
theorem claim3_await_polling_discipline
    (fetchSeq : Nat → RemoteFile) (file : RemoteFile) (fuel : Nat)
    (r : AwaitResult) (stats : AwaitStats)
    (h : awaitReady fetchSeq file fuel = some (r, stats)) :
    stats.fetches = stats.iterations ∧
    stats.elapsedMs = pollDelayMs * stats.fetches ∧
    pollDelayMs = 5000 ∧
    r.file.state ≠ FileState.processing ∧
    (file.state = FileState.active →
      stats.fetches = 0 ∧ r = AwaitResult.ready file) := by
  obtain ⟨k, h1, h2, h3, h4⟩ := awaitReadyFuel_spec fetchSeq fuel file ⟨0, 0, 0⟩ r stats h
  simp only at h1 h2 h3
  refine ⟨by omega, by rw [h3, h1]; simp, rfl, h4, ?_⟩
  intro ha
  have hnp : file.state ≠ FileState.processing := by rw [ha]; decide
  have hnf : ¬ file.state = FileState.failed := by rw [ha]; decide
  unfold awaitReady at h
  rw [awaitReadyFuel_exit fetchSeq fuel file ⟨0, 0, 0⟩ hnp, if_neg hnf] at h
  injection h with h'
  injection h' with hr hs
  exact ⟨by rw [← hs], hr.symm⟩

/-- Witness for C3: polling a processing file whose first fetch reports
active returns after one fetch, one iteration and one 5000 ms sleep. -/
theorem claim3_await_polling_discipline_witness :
    (AwaitStats.mk 1 1 5000).fetches = (AwaitStats.mk 1 1 5000).iterations ∧
    (AwaitStats.mk 1 1 5000).elapsedMs =
      pollDelayMs * (AwaitStats.mk 1 1 5000).fetches :=
  have h := claim3_await_polling_discipline (fun _ => sampleActive) sampleProcessing 4
    (AwaitResult.ready sampleActive) ⟨1, 1, 5000⟩ rfl
  ⟨h.1, h.2.1⟩

/-- C4: as soon as an observed state is "failed" the wait-for-ready step
raises ProcessingFailedError with no further fetch calls — after an input
in state "processing" and `k` fetches reporting "processing", a fetch
reporting "failed" stops the run after exactly `k + 1` fetch calls (2 for
the processing-then-failed sequence), and the whole run ends in the
processing-failed outcome with the generate step never invoked (no
token-count call and no generation call). -/
theorem claim4_failed_stops_run
    (fetchSeq : Nat → RemoteFile) (file : RemoteFile) (k fuel : Nat)
    (hfile : file.state = FileState.processing)
    (hbefore : ∀ i, i < k → (fetchSeq i).state = FileState.processing)
    (hk : (fetchSeq k).state = FileState.failed)
    (hfuel : k < fuel) :
    awaitReady fetchSeq file fuel =
      some (AwaitResult.procFailed (fetchSeq k),
            ⟨k + 1, k + 1, pollDelayMs * (k + 1)⟩) ∧
    ∀ listing upload countTokens generateContent,
      (resolveRemoteFile listing upload).1 = file →
      analyzeYouTubeVideo listing upload fetchSeq countTokens generateContent fuel =
        some (RunOutcome.processingFailed,
              ⟨(resolveRemoteFile listing upload).2,
               ⟨k + 1, k + 1, pollDelayMs * (k + 1)⟩, []⟩) := by
  have hawait : awaitReady fetchSeq file fuel =
      some (AwaitResult.procFailed (fetchSeq k),
            ⟨k + 1, k + 1, pollDelayMs * (k + 1)⟩) := by
    have := awaitReadyFuel_failed_exact fetchSeq k fuel file ⟨0, 0, 0⟩ hfile
      (by simpa using hbefore) (by simpa using hk) hfuel
    unfold awaitReady
    rw [this]
    simp
  refine ⟨hawait, ?_⟩
  intro listing upload countTokens generateContent hres
  rcases hr : resolveRemoteFile listing upload with ⟨g, n⟩
  rw [hr] at hres
  simp only at hres
  subst hres
  unfold analyzeYouTubeVideo
  rw [hr]
  simp only [hawait]

/-- Witness for C4: the fetch sequence reporting "processing" then
"failed" raises the error after exactly 2 fetch calls. -/
theorem claim4_failed_stops_run_witness :
    awaitReady procThenFailedSeq sampleProcessing 10 =
      some (AwaitResult.procFailed (procThenFailedSeq 1),
            ⟨1 + 1, 1 + 1, pollDelayMs * (1 + 1)⟩) :=
  (claim4_failed_stops_run procThenFailedSeq sampleProcessing 1 10 rfl
    (by intro i hi
        have hi0 : i = 0 := by omega
        subst hi0
        rfl)
    rfl (by omega)).1

/-- Counterexample to C5: the reuse-by-name path does not skip the
processing state machine. With the listing holding the desired-name file
in state "processing", the run performs 1 fetch (not 0); with it in state
"failed", the run raises ProcessingFailedError instead of treating the
file as ready. -/
theorem claim5_counterexample :
    ((analyzeYouTubeVideo (some [sampleProcessing]) sampleUpload
        (fun _ => sampleActive) sampleCountTokens sampleGenerate 5).map
      (fun p => p.2.awaitStats.fetches) = some 1 ∧ (1 : Nat) ≠ 0) ∧
    analyzeYouTubeVideo (some [sampleFailed]) sampleUpload
        (fun _ => sampleActive) sampleCountTokens sampleGenerate 5 =
      some (RunOutcome.processingFailed, ⟨0, ⟨0, 0, 0⟩, []⟩) :=
  ⟨⟨rfl, by decide⟩, rfl⟩

/-- C5 (amended): when a file with the exact desired name appears in the
listing results, the resolve step returns it with zero upload calls and
no fresh fetch, but the processing state machine is still applied to its
listed state: a listed "active" state is trusted with zero fetch calls
(no fresh verification), a listed "processing" state sends the run
through the poll loop (at least one fetch), and a listed "failed" state
raises ProcessingFailedError with the generate step never invoked. -/
theorem claim5_amended_state_machine_still_applies
    (listing : Option (List RemoteFile)) (upload : UploadConfig → RemoteFile)
    (fetchSeq : Nat → RemoteFile)
    (countTokens : GenerationRequest → Except String Nat)
    (generateContent : GenerationRequest → Except String (Option (List FunctionCall)))
    (fuel : Nat)
    (h : ∃ f ∈ listing.getD [], f.name = desiredName) :
    ∃ g, resolveRemoteFile listing upload = (g, 0) ∧
      g ∈ listing.getD [] ∧ g.name = desiredName ∧
      (g.state = FileState.active →
        analyzeYouTubeVideo listing upload fetchSeq countTokens generateContent fuel =
          some (RunOutcome.completed (generateStep g countTokens generateContent).1,
                ⟨0, ⟨0, 0, 0⟩, (generateStep g countTokens generateContent).2⟩)) ∧
      (g.state = FileState.failed →
        analyzeYouTubeVideo listing upload fetchSeq countTokens generateContent fuel =
          some (RunOutcome.processingFailed, ⟨0, ⟨0, 0, 0⟩, []⟩)) ∧
      (g.state = FileState.processing →
        ∀ o trace,
          analyzeYouTubeVideo listing upload fetchSeq countTokens generateContent fuel =
            some (o, trace) → 1 ≤ trace.awaitStats.fetches) := by
  obtain ⟨g, hscan, hmem, hname⟩ := scanForName_exists_match desiredName _ h
  have hres : resolveRemoteFile listing upload = (g, 0) := by
    unfold resolveRemoteFile
    rw [hscan]
  refine ⟨g, hres, hmem, hname, ?_, ?_, ?_⟩
  · intro ha
    have hawait : awaitReady fetchSeq g fuel =
        some (AwaitResult.ready g, ⟨0, 0, 0⟩) := by
      unfold awaitReady
      rw [awaitReadyFuel_exit fetchSeq fuel g ⟨0, 0, 0⟩ (by rw [ha]; decide),
        if_neg (show ¬g.state = FileState.failed by rw [ha]; decide)]
    unfold analyzeYouTubeVideo
    rw [hres]
    simp only [hawait]
  · intro hf
    have hawait : awaitReady fetchSeq g fuel =
        some (AwaitResult.procFailed g, ⟨0, 0, 0⟩) := by
      unfold awaitReady
      rw [awaitReadyFuel_exit fetchSeq fuel g ⟨0, 0, 0⟩ (by rw [hf]; decide),
        if_pos hf]
    unfold analyzeYouTubeVideo
    rw [hres]
    simp only [hawait]
  · intro hp o trace hrun
    unfold analyzeYouTubeVideo at hrun
    rw [hres] at hrun
    simp only at hrun
    rcases hq : awaitReady fetchSeq g fuel with _ | ⟨r, stats⟩
    · rw [hq] at hrun; cases hrun
    · have hpos := awaitReadyFuel_processing_pos fetchSeq fuel g ⟨0, 0, 0⟩ r stats hp hq
      rw [hq] at hrun
      cases r with
      | procFailed f =>
        simp only at hrun
        injection hrun with h'
        injection h' with ho ht
        rw [← ht]
        simpa using hpos
      | ready f =>
        simp only at hrun
        injection hrun with h'
        injection h' with ho ht
        rw [← ht]
        simpa using hpos

/-- Witness for the amended C5: the listing holding the active
desired-name file resolves to it with zero uploads, and the three state
clauses hold for it. -/
theorem claim5_amended_state_machine_still_applies_witness :
    ∃ g, resolveRemoteFile (some [sampleActive]) sampleUpload = (g, 0) ∧
      g ∈ (some [sampleActive] : Option (List RemoteFile)).getD [] ∧
      g.name = desiredName ∧
      (g.state = FileState.active →
        analyzeYouTubeVideo (some [sampleActive]) sampleUpload
            (fun _ => sampleActive) sampleCountTokens sampleGenerate 3 =
          some (RunOutcome.completed
                  (generateStep g sampleCountTokens sampleGenerate).1,
                ⟨0, ⟨0, 0, 0⟩, (generateStep g sampleCountTokens sampleGenerate).2⟩)) ∧
      (g.state = FileState.failed →
        analyzeYouTubeVideo (some [sampleActive]) sampleUpload
            (fun _ => sampleActive) sampleCountTokens sampleGenerate 3 =
          some (RunOutcome.processingFailed, ⟨0, ⟨0, 0, 0⟩, []⟩)) ∧
      (g.state = FileState.processing →
        ∀ o trace,
          analyzeYouTubeVideo (some [sampleActive]) sampleUpload
              (fun _ => sampleActive) sampleCountTokens sampleGenerate 3 =
            some (o, trace) → 1 ≤ trace.awaitStats.fetches) :=
  claim5_amended_state_machine_still_applies (some [sampleActive]) sampleUpload
    (fun _ => sampleActive) sampleCountTokens sampleGenerate 3
    ⟨sampleActive, by simp, rfl⟩

/-- C6: the generate step embeds the resolved file's URI and MIME type
verbatim in the request's file-data part, and its first outgoing call is
the token-count request for that same request; any further call is the
generation request itself, also for that same request. -/
theorem claim6_request_embeds_file_and_counts_first
    (videoFile : RemoteFile)
    (countTokens : GenerationRequest → Except String Nat)
    (generateContent : GenerationRequest → Except String (Option (List FunctionCall))) :
    requestFileData (buildRequest videoFile) =
      some ⟨videoFile.mimeType, videoFile.uri⟩ ∧
    ∃ rest, (generateStep videoFile countTokens generateContent).2 =
        GenEvent.countTokensCall (buildRequest videoFile) :: rest ∧
        ∀ e ∈ rest, e = GenEvent.generateCall (buildRequest videoFile) := by
  constructor
  · rfl
  · rcases hct : countTokens (buildRequest videoFile) with e | n
    · exact ⟨[], by simp [generateStep, hct], by simp⟩
    · rcases hgc : generateContent (buildRequest videoFile) with e | o
      · refine ⟨[GenEvent.generateCall (buildRequest videoFile)],
          by simp [generateStep, hct, hgc], ?_⟩
        intro e' he'
        simpa using he'
      · cases o with
        | none =>
          refine ⟨[GenEvent.generateCall (buildRequest videoFile)],
            by simp [generateStep, hct, hgc], ?_⟩
          intro e' he'
          simpa using he'
        | some fs =>
          refine ⟨[GenEvent.generateCall (buildRequest videoFile)],
            by simp [generateStep, hct, hgc], ?_⟩
          intro e' he'
          simpa using he'

/-- C7: when the generation response holds zero function calls the
generate step reports the explicit no-functions outcome, not an error,
and the whole run completes normally with that outcome. -/
theorem claim7_zero_function_calls_no_throw
    (videoFile : RemoteFile)
    (countTokens : GenerationRequest → Except String Nat)
    (generateContent : GenerationRequest → Except String (Option (List FunctionCall)))
    (n : Nat)
    (hct : countTokens (buildRequest videoFile) = Except.ok n)
    (hgc : generateContent (buildRequest videoFile) = Except.ok none) :
    (generateStep videoFile countTokens generateContent).1 = GenOutcome.noFunctions ∧
    (∀ e, (generateStep videoFile countTokens generateContent).1 ≠
      GenOutcome.errorLogged e) ∧
    ∀ listing upload fetchSeq fuel r stats,
      (resolveRemoteFile listing upload).1 = videoFile →
      awaitReady fetchSeq videoFile fuel = some (AwaitResult.ready r, stats) →
      analyzeYouTubeVideo listing upload fetchSeq countTokens generateContent fuel =
        some (RunOutcome.completed GenOutcome.noFunctions,
              ⟨(resolveRemoteFile listing upload).2, stats,
               (generateStep videoFile countTokens generateContent).2⟩) := by
  have hgen : generateStep videoFile countTokens generateContent =
      (GenOutcome.noFunctions,
       [GenEvent.countTokensCall (buildRequest videoFile),
        GenEvent.generateCall (buildRequest videoFile)]) := by
    simp [generateStep, hct, hgc]
  refine ⟨by rw [hgen], by intro e; simp [hgen], ?_⟩
  intro listing upload fetchSeq fuel r stats hres hawait
  rcases hr : resolveRemoteFile listing upload with ⟨g, m⟩
  rw [hr] at hres
  simp only at hres
  subst hres
  unfold analyzeYouTubeVideo
  rw [hr]
  simp only [hawait, hgen]

/-- C8: every error raised by the token-count call or the generation call
is caught locally and swallowed: the generate step returns the
error-logged outcome, and the whole run still completes normally (no
propagation to the caller). -/
theorem claim8_generation_errors_swallowed
    (videoFile : RemoteFile)
    (countTokens : GenerationRequest → Except String Nat)
    (generateContent : GenerationRequest → Except String (Option (List FunctionCall)))
    (e : String)
    (h : countTokens (buildRequest videoFile) = Except.error e ∨
         ((∃ n, countTokens (buildRequest videoFile) = Except.ok n) ∧
          generateContent (buildRequest videoFile) = Except.error e)) :
    (generateStep videoFile countTokens generateContent).1 =
      GenOutcome.errorLogged e ∧
    ∀ listing upload fetchSeq fuel r stats,
      (resolveRemoteFile listing upload).1 = videoFile →
      awaitReady fetchSeq videoFile fuel = some (AwaitResult.ready r, stats) →
      analyzeYouTubeVideo listing upload fetchSeq countTokens generateContent fuel =
        some (RunOutcome.completed (GenOutcome.errorLogged e),
              ⟨(resolveRemoteFile listing upload).2, stats,
               (generateStep videoFile countTokens generateContent).2⟩) := by
  have hgen1 : (generateStep videoFile countTokens generateContent).1 =
      GenOutcome.errorLogged e := by
    rcases h with hct | ⟨⟨n, hct⟩, hgc⟩
    · simp [generateStep, hct]
    · simp [generateStep, hct, hgc]
  refine ⟨hgen1, ?_⟩
  intro listing upload fetchSeq fuel r stats hres hawait
  rcases hr : resolveRemoteFile listing upload with ⟨g, m⟩
  rw [hr] at hres
  simp only at hres
  subst hres
  unfold analyzeYouTubeVideo
  rw [hr]
  simp only [hawait, hgen1]

/-- Witness for C7: a concrete zero-function-call response yields the
no-functions outcome. -/
theorem claim7_zero_function_calls_no_throw_witness :
    (generateStep sampleActive sampleCountTokens sampleGenerateNone).1 =
      GenOutcome.noFunctions :=
  (claim7_zero_function_calls_no_throw sampleActive sampleCountTokens
    sampleGenerateNone 42 rfl rfl).1

/-- Witness for C8: a failing token-count call is swallowed into the
error-logged outcome. -/
theorem claim8_generation_errors_swallowed_witness :
    (generateStep sampleActive sampleCountFails sampleGenerate).1 =
      GenOutcome.errorLogged "boom" :=
  (claim8_generation_errors_swallowed sampleActive sampleCountFails
    sampleGenerate "boom" (Or.inl rfl)).1

end GeminiVideo
